import Mathlib

/-!
# Session and delegation gateway — formal model

Shallow embedding of the gateway logic of the `ai-appointment-backend`
frontend: the credential (cookie) store, the route guard
(`src/frontend/middleware.ts`), the request forwarder
(`src/frontend/app/api/proxy/[...path]/route.ts`) and the session
lifecycle routes (login, select-clinic, support start/stop, logout).

Instants are milliseconds since the epoch, as produced by `Date.now()`
in the source. Cookie values are strings; JavaScript truthiness of a
possibly-absent string is modelled by `jsTruthy`.
-/

namespace Gateway

/-- Absolute instant or duration in milliseconds (`Date.now()` in the source). -/
abbrev Millis := Nat

/-- A stored cookie: its string value and its absolute expiry instant.
Every `cookieStore.set` in this repository passes an explicit `expires` date. -/
structure Cookie where
  value : String
  expires : Millis
  deriving Repr, DecidableEq

/-- The Credential Store: the seven cookies the gateway reads and writes.
(`accessToken`, `refreshToken`, `clinicSlug`, `hqRole` form the Session;
`supportToken`, `supportClinicSlug`, `supportExpiresAt` the Support Session.) -/
structure Store where
  accessToken : Option Cookie
  refreshToken : Option Cookie
  clinicSlug : Option Cookie
  hqRole : Option Cookie
  supportToken : Option Cookie
  supportClinicSlug : Option Cookie
  supportExpiresAt : Option Cookie
  deriving Repr, DecidableEq

/-- The store with no cookie set. -/
def Store.empty : Store :=
  { accessToken := none, refreshToken := none, clinicSlug := none, hqRole := none
    supportToken := none, supportClinicSlug := none, supportExpiresAt := none }

/-- Modelled from the spec: the browser cookie jar, which is not part of the
repository's own code (the routes call the platform's `cookies()`api). The
spec states that "expiry is enforced lazily, by comparing the stored expiry to
the current instant at the moment of use" and that a grant "is invalid at or
after this instant": a cookie read at instant `now` yields its value exactly
when `now` is strictly before its expiry; an expired cookie reads as absent. -/
def cookieGet (now : Millis) (c : Option Cookie) : Option String :=
  match c with
  | none => none
  | some k => if now < k.expires then some k.value else none

/-- JavaScript truthiness of a `string | undefined` value: `undefined` and
the empty string are falsy, every other string is truthy. -/
def jsTruthy (o : Option String) : Bool :=
  match o with
  | none => false
  | some v => decide (v ≠ "")

/-- `response.ok` of the Fetch API: status in the range 200–299. -/
def httpOk (status : Nat) : Bool :=
  decide (200 ≤ status) && decide (status < 300)

/-- `cookieStore.delete(key)` for the seven keys the gateway uses
(`store.delete(key)` in the logout route's loop). An unknown key deletes
nothing. -/
def deleteKey (store : Store) (key : String) : Store :=
  if key = "accessToken" then { store with accessToken := none }
  else if key = "refreshToken" then { store with refreshToken := none }
  else if key = "clinicSlug" then { store with clinicSlug := none }
  else if key = "hqRole" then { store with hqRole := none }
  else if key = "supportToken" then { store with supportToken := none }
  else if key = "supportClinicSlug" then { store with supportClinicSlug := none }
  else if key = "supportExpiresAt" then { store with supportExpiresAt := none }
  else store

/-- The three `cookieStore.delete` calls on the Support Session fields, shared
by the login, select-clinic and support-stop routes. -/
def clearSupport (store : Store) : Store :=
  deleteKey (deleteKey (deleteKey store "supportToken") "supportClinicSlug") "supportExpiresAt"

/-! ## Request Forwarder (`app/api/proxy/[...path]/route.ts`) -/

/-- `BACKEND_URL.replace(/\/+$/, "")`: strip every trailing slash. -/
def stripTrailingSlashes (s : String) : String :=
  String.mk ((s.toList.reverse.dropWhile (fun c => c == '/')).reverse)

/-- `segments.join("/")`. -/
def joinSegments (segs : List String) : String :=
  String.intercalate "/" segs

/-- The downstream URL: `new URL(targetPath, strippedBase + "/")` with the
request's query string assigned to `backend.search`. For the plain relative
path segments produced by the catch-all route this WHATWG-URL resolution is
concatenation of the stripped base, a slash, the joined tail and the query. -/
def buildBackendUrl (base : String) (segs : List String) (search : String) : String :=
  stripTrailingSlashes base ++ "/" ++ joinSegments segs ++ search

/-- `request.headers.get("content-type")?.includes("application/json")`. -/
def isJsonContentType (ct : Option String) : Bool :=
  match ct with
  | none => false
  | some s => decide ("application/json".toList <:+: s.toList)

/-- `!["GET", "HEAD"].includes(method)`: these methods carry no body downstream. -/
def hasBody (method : String) : Bool :=
  !(["GET", "HEAD"].contains method)

/-- The forwarder's credential-selection guard:
`isClinicPath && supportToken && supportClinic === clinicSlug`, where
`clinicSlug` is `segments[1]` on a clinic path. -/
def usesSupport (now : Millis) (store : Store) (segs : List String) : Bool :=
  (segs.head? == some "clinic")
    && jsTruthy (cookieGet now store.supportToken)
    && (cookieGet now store.supportClinicSlug == segs[1]?)

/-- The bearer credential the forwarder presents: the support token when the
guard holds, otherwise `accessToken`'s value (or `null`). -/
def selectAuthToken (now : Millis) (store : Store) (segs : List String) : Option String :=
  if usesSupport now store segs then cookieGet now store.supportToken
  else cookieGet now store.accessToken

/-- The incoming request as the forwarder sees it: its query string
(`requestUrl.search`), declared content type, and body text. -/
structure ProxyRequest where
  search : String
  contentType : Option String
  bodyText : String
  deriving Repr, DecidableEq

/-- The downstream response: transport status, content type header, body text. -/
structure DownstreamResponse where
  status : Nat
  contentType : Option String
  bodyText : String
  deriving Repr, DecidableEq

/-- The single `fetch` the forwarder issues: URL, method, bearer credential,
forwarded content type header and body. -/
structure DownstreamCall where
  url : String
  method : String
  bearer : String
  contentType : Option String
  body : Option String
  deriving Repr, DecidableEq

/-- A response body produced by the forwarder: either the locally produced
`{ok:false,error:code}` JSON, or the downstream body passed through verbatim. -/
inductive ProxyBody where
  | localError (code : String)
  | passthrough (text : String)
  deriving Repr, DecidableEq

/-- The forwarder's observable outcome: the downstream call it made (if any)
and the response it returns. -/
structure ProxyResponse where
  call : Option DownstreamCall
  status : Nat
  contentType : String
  body : ProxyBody
  deriving Repr, DecidableEq

/-- The `forward` function of the proxy route: select a bearer credential,
fail `UNAUTHORIZED` (401) with no downstream call when none is usable,
otherwise relay the call and pass the downstream status, body and content
type back (content type defaulting to `application/json` when the downstream
response carries none). `downstream` is the response the backend would give
to the relayed call. -/
def forward (backendBase : String) (now : Millis) (store : Store)
    (segs : List String) (method : String) (req : ProxyRequest)
    (downstream : DownstreamResponse) : ProxyResponse :=
  let tok := selectAuthToken now store segs
  if jsTruthy tok then
    { call := some
        { url := buildBackendUrl backendBase segs req.search
          method := method
          bearer := tok.getD ""
          contentType := if isJsonContentType req.contentType then some "application/json" else none
          body := if hasBody method then some req.bodyText else none }
      status := downstream.status
      contentType := downstream.contentType.getD "application/json"
      body := ProxyBody.passthrough downstream.bodyText }
  else
    { call := none
      status := 401
      contentType := "application/json"
      body := ProxyBody.localError "UNAUTHORIZED" }

/-! ## Route Guard (`middleware.ts`) -/

/-- `pathname.startsWith(prefix)`, phrased over the character list. -/
def strStartsWith (s pre : String) : Bool :=
  decide (pre.toList <+: s.toList)

/-- The regex `/^\/c\/([^/]+)(\/.*)?$/`: matches when the pathname is
`/c/{slug}` or `/c/{slug}/...` with a nonempty slash-free slug, and yields
the slug (capture group 1). -/
def clinicMatch (p : String) : Option String :=
  if strStartsWith p "/c/" then
    let slug := (p.toList.drop 3).takeWhile (fun c => c != '/')
    if slug.isEmpty then none else some (String.mk slug)
  else none

/-- A Route Guard decision. -/
inductive GuardDecision where
  | next
  | redirectLogin
  | redirectSelectClinic
  deriving Repr, DecidableEq

/-- The `middleware` function: forwarder namespace bypasses the guard; the
login page redirects authenticated callers to clinic selection; clinic
selection and the headquarters namespace require `accessToken` (`/hq` also a
truthy `hqRole`); a clinic-namespace path `/c/{slug}/...` requires
`accessToken` and a stored `clinicSlug` equal to `slug`; anything else
passes. Cookie reads go through the jar at instant `now`. -/
def middleware (now : Millis) (store : Store) (pathname : String) : GuardDecision :=
  if strStartsWith pathname "/api/" then GuardDecision.next
  else
    let accessToken := cookieGet now store.accessToken
    if strStartsWith pathname "/login" then
      if accessToken.isSome then GuardDecision.redirectSelectClinic else GuardDecision.next
    else if strStartsWith pathname "/select-clinic" then
      if accessToken.isSome then GuardDecision.next else GuardDecision.redirectLogin
    else if strStartsWith pathname "/hq" then
      if !accessToken.isSome then GuardDecision.redirectLogin
      else if !jsTruthy (cookieGet now store.hqRole) then GuardDecision.redirectLogin
      else GuardDecision.next
    else
      match clinicMatch pathname with
      | some slug =>
        if !accessToken.isSome then GuardDecision.redirectLogin
        else
          let storedSlug := cookieGet now store.clinicSlug
          if !jsTruthy storedSlug || storedSlug != some slug then
            GuardDecision.redirectSelectClinic
          else GuardDecision.next
      | none => GuardDecision.next

/-! ## Session Lifecycle Controller

Each lifecycle route reads the cookie jar, makes at most one downstream call,
and writes the store at most once. The downstream authority's response is a
parameter of the operation (the gateway treats the backend as opaque); each
operation also reports whether the downstream call was made. -/

/-- The authority's `/auth/login` success data (`payload.data`):
`{access, refresh, clinics[], hq_role?}` per the external-interface contract. -/
structure LoginData where
  access : String
  refresh : String
  clinics : List String
  hq_role : Option String
  deriving Repr, DecidableEq

/-- The authority's response to `/auth/login`: transport status, `payload.ok`,
and the data (read only on success). -/
structure LoginAuthorityResp where
  status : Nat
  ok : Bool
  data : LoginData
  deriving Repr, DecidableEq

/-- The login route's response: the authority payload passed through with its
status on failure, or `200 {ok:true,data:{clinics,hq_role}}` on success. -/
inductive LoginResult where
  | failure (status : Nat) (resp : LoginAuthorityResp)
  | success (clinics : List String) (hq_role : Option String)
  deriving Repr, DecidableEq

/-- The login route (`src/unnamed/part_001`): on authority failure, pass the
payload through and touch no cookie; on success install `accessToken`
(expiry now + 30 min) and `refreshToken` (expiry now + 7 days), set `hqRole`
(expiry as refresh) when `hq_role` is truthy and delete it otherwise, and
delete the three Support Session cookies. -/
def login (now : Millis) (resp : LoginAuthorityResp) (store : Store) : Store × LoginResult :=
  if !httpOk resp.status || !resp.ok then
    (store, LoginResult.failure resp.status resp)
  else
    let d := resp.data
    let accessExpires := now + 1000 * 60 * 30
    let refreshExpires := now + 1000 * 60 * 60 * 24 * 7
    let s1 := { store with
      accessToken := some ⟨d.access, accessExpires⟩
      refreshToken := some ⟨d.refresh, refreshExpires⟩ }
    let s2 :=
      if jsTruthy d.hq_role then { s1 with hqRole := some ⟨d.hq_role.getD "", refreshExpires⟩ }
      else deleteKey s1 "hqRole"
    (clearSupport s2, LoginResult.success d.clinics d.hq_role)

/-- A simple route response: `ok` is a 200 `{ok:true}`, `err` carries a status
and an error code. -/
inductive SimpleResult where
  | ok
  | err (status : Nat) (code : String)
  deriving Repr, DecidableEq

/-- The clinic-selection route (`src/unnamed/part_002`, POST): an empty slug
fails `INVALID_SLUG` (400) untouched; otherwise install `clinicSlug`
(expiry now + 24 h) and delete the three Support Session cookies. -/
def selectClinic (now : Millis) (slug : String) (store : Store) : Store × SimpleResult :=
  if !jsTruthy (some slug) then (store, SimpleResult.err 400 "INVALID_SLUG")
  else
    (clearSupport { store with clinicSlug := some ⟨slug, now + 1000 * 60 * 60 * 24⟩ },
     SimpleResult.ok)

/-- The support-start request body: `{clinic_id?, reason?, clinic_slug?}`. -/
structure StartBody where
  clinic_id : Option Nat
  reason : Option String
  clinic_slug : Option String
  deriving Repr, DecidableEq

/-- The authority's `/hq/support/start` success data (`payload.data`):
`support_token` and an optional `expires_at` instant (its wire form is a
timestamp string; the model carries the parsed instant). -/
structure StartData where
  support_token : Option String
  expires_at : Option Millis
  deriving Repr, DecidableEq

/-- The authority's response to `/hq/support/start`: transport status,
`payload.ok`, optional `data` (`payload.data ?? {}` in the source). -/
structure StartAuthorityResp where
  status : Nat
  ok : Bool
  data : Option StartData
  deriving Repr, DecidableEq

/-- The support-start route's response: local `UNAUTHORIZED` (401), the
authority payload passed through with the authority's status on failure, or
the authority payload with status 200 on success. -/
inductive StartResult where
  | unauthorized
  | passthrough (status : Nat) (resp : StartAuthorityResp)
  | okPayload (resp : StartAuthorityResp)
  deriving Repr, DecidableEq

/-- The support-start route (`app/api/support/start/route.ts`): without an
`accessToken` cookie, fail `UNAUTHORIZED` with no downstream call; otherwise
call the authority. On authority failure pass the payload through. On success,
when both `support_token` and the request's `clinic_slug` are truthy, install
`supportToken` and `supportClinicSlug` with cookie expiry `expires_at`
(falling back to now + 15 min when absent) and additionally install
`supportExpiresAt` only when the authority supplied `expires_at`; then return
the payload with status 200. The returned flag records whether the downstream
call was made. -/
def startSupport (now : Millis) (body : StartBody) (resp : StartAuthorityResp)
    (store : Store) : Store × StartResult × Bool :=
  if !(cookieGet now store.accessToken).isSome then
    (store, StartResult.unauthorized, false)
  else if !httpOk resp.status || !resp.ok then
    (store, StartResult.passthrough resp.status resp, true)
  else
    let d := resp.data.getD ⟨none, none⟩
    let store' :=
      if jsTruthy d.support_token && jsTruthy body.clinic_slug then
        let expiresDate := d.expires_at.getD (now + 15 * 60 * 1000)
        let s1 := { store with
          supportToken := some ⟨d.support_token.getD "", expiresDate⟩
          supportClinicSlug := some ⟨body.clinic_slug.getD "", expiresDate⟩ }
        match d.expires_at with
        | some e => { s1 with supportExpiresAt := some ⟨toString e, expiresDate⟩ }
        | none => s1
      else store
    (store', StartResult.okPayload resp, true)

/-- The authority's response to `/hq/support/stop`: transport status and the
payload's `ok` field (`none` models a missing field or a body that failed to
parse, which the source turns into `{}`). -/
structure StopAuthorityResp where
  status : Nat
  okField : Option Bool
  deriving Repr, DecidableEq

/-- The support-stop route's response: a trivial 200 `{ok:true}` with no
downstream call, the authority payload passed through with the authority's
status, or a 200 `{ok:true}` after a successful revoke. -/
inductive StopResult where
  | okTrivial
  | passthrough (status : Nat) (resp : StopAuthorityResp)
  | okAfterRevoke
  deriving Repr, DecidableEq

/-- The support-stop route (`app/api/support/stop/route.ts`): without an
`accessToken` or a `supportToken` cookie, delete the three Support Session
cookies and succeed with no downstream call; otherwise call the authority's
revoke endpoint, delete the three Support Session cookies regardless, and
pass an authority failure through (`!response.ok || payload?.ok === false`).
The returned flag records whether the downstream call was made. -/
def stopSupport (now : Millis) (resp : StopAuthorityResp) (store : Store)
    : Store × StopResult × Bool :=
  if !(cookieGet now store.accessToken).isSome
      || !(cookieGet now store.supportToken).isSome then
    (clearSupport store, StopResult.okTrivial, false)
  else if !httpOk resp.status || resp.okField == some false then
    (clearSupport store, StopResult.passthrough resp.status resp, true)
  else
    (clearSupport store, StopResult.okAfterRevoke, true)

/-- The logout route (`app/api/session/logout/route.ts`): delete each of the
seven cookie keys in the source's loop order, then return `200 {ok:true}`. -/
def logout (store : Store) : Store × SimpleResult :=
  (["accessToken", "refreshToken", "clinicSlug", "hqRole",
    "supportToken", "supportClinicSlug", "supportExpiresAt"].foldl deleteKey store,
   SimpleResult.ok)

/-! ## Reachable-state invariant of the Support Session cookies

`startSupport` installs `supportToken` and `supportClinicSlug` together, with
the same expiry and a nonempty token value; every other write deletes both.
So in every reachable store the two cookies are either both absent or both
present with matching expiries. -/

/-- The Support Session cookie invariant: `supportToken` and
`supportClinicSlug` are both absent, or both present with a nonempty token
value and the same expiry instant (the Support Session's expiry). -/
def supportWF (store : Store) : Bool :=
  match store.supportToken, store.supportClinicSlug with
  | none, none => true
  | some t, some c => decide (t.value ≠ "") && decide (t.expires = c.expires)
  | _, _ => false

/-- Unfolding of the invariant into its two shapes. -/
theorem supportWF_cases (store : Store) (h : supportWF store = true) :
    (store.supportToken = none ∧ store.supportClinicSlug = none) ∨
    (∃ t c, store.supportToken = some t ∧ store.supportClinicSlug = some c ∧
      t.value ≠ "" ∧ t.expires = c.expires) := by
  unfold supportWF at h
  cases ht : store.supportToken <;> cases hc : store.supportClinicSlug <;>
    rw [ht, hc] at h <;> simp_all

/-- A cookie read succeeds exactly for a present, unexpired cookie. -/
theorem cookieGet_eq_some_iff (now : Millis) (c : Option Cookie) (v : String) :
    cookieGet now c = some v ↔ ∃ k, c = some k ∧ k.value = v ∧ now < k.expires := by
  cases c with
  | none => simp [cookieGet]
  | some k =>
    simp only [cookieGet, Option.some.injEq]
    by_cases hlt : now < k.expires <;> simp [hlt]

/-- A truthy optional string is a present nonempty string. -/
theorem jsTruthy_iff (o : Option String) :
    jsTruthy o = true ↔ ∃ v, o = some v ∧ v ≠ "" := by
  cases o <;> simp [jsTruthy]

/-- `clearSupport` only empties the three Support Session fields. -/
theorem clearSupport_eq (store : Store) :
    clearSupport store =
      { store with supportToken := none, supportClinicSlug := none, supportExpiresAt := none } := by
  simp [clearSupport, deleteKey]

/-- Under the invariant, the forwarder's support guard holds exactly when the
path is clinic-scoped, its clinic segment equals the stored support clinic,
and the current instant is strictly before the Support Session's expiry. -/
theorem usesSupport_iff (now : Millis) (store : Store) (segs : List String)
    (h : supportWF store = true) :
    usesSupport now store segs = true ↔
      ∃ t c, store.supportToken = some t ∧ store.supportClinicSlug = some c ∧
        segs.head? = some "clinic" ∧ segs[1]? = some c.value ∧ now < t.expires := by
  unfold usesSupport
  rcases supportWF_cases store h with ⟨ht, hc⟩ | ⟨t, c, ht, hc, hval, hexp⟩
  · simp [ht, hc, cookieGet, jsTruthy]
  · simp only [ht, hc, cookieGet, hexp]
    by_cases hlt : now < c.expires
    · simp only [if_pos hlt, jsTruthy, Bool.and_eq_true, decide_eq_true_iff, beq_iff_eq,
        Option.some.injEq]
      constructor
      · rintro ⟨⟨hhead, -⟩, hslug⟩
        exact ⟨t, c, rfl, rfl, hhead, hslug.symm, by rw [hexp]; exact hlt⟩
      · rintro ⟨t', c', ht', hc', hhead, hslug, -⟩
        cases ht'
        cases hc'
        exact ⟨⟨hhead, hval⟩, hslug.symm⟩
    · simp only [if_neg hlt]
      constructor
      · intro habs
        simp [jsTruthy] at habs
      · rintro ⟨t', c', ht', hc', -, -, hlt'⟩
        exfalso
        cases ht'
        exact hlt (hexp ▸ hlt')

/-- C1: for every incoming request the Forwarder presents `supportToken` as
the bearer credential iff the path's clinic segment equals the stored Support
Session clinic and the current instant is before the Support Session expiry;
in every other case it presents `accessToken`, and when no usable credential
exists it fails 401 `UNAUTHORIZED` with no downstream call. -/
theorem forwarder_selects_support_iff_scope_match_and_unexpired
    (backendBase : String) (now : Millis) (store : Store) (segs : List String)
    (method : String) (req : ProxyRequest) (downstream : DownstreamResponse)
    (hwf : supportWF store = true) :
    (usesSupport now store segs = true ↔
      ∃ t c, store.supportToken = some t ∧ store.supportClinicSlug = some c ∧
        segs.head? = some "clinic" ∧ segs[1]? = some c.value ∧ now < t.expires)
    ∧ (∀ t, store.supportToken = some t → usesSupport now store segs = true →
        ∃ call, (forward backendBase now store segs method req downstream).call = some call ∧
          call.bearer = t.value)
    ∧ (usesSupport now store segs = false →
        ∀ v, cookieGet now store.accessToken = some v → v ≠ "" →
          ∃ call, (forward backendBase now store segs method req downstream).call = some call ∧
            call.bearer = v)
    ∧ (usesSupport now store segs = false →
        jsTruthy (cookieGet now store.accessToken) = false →
          (forward backendBase now store segs method req downstream).call = none ∧
          (forward backendBase now store segs method req downstream).status = 401 ∧
          (forward backendBase now store segs method req downstream).body =
            ProxyBody.localError "UNAUTHORIZED") := by
  refine ⟨usesSupport_iff now store segs hwf, ?_, ?_, ?_⟩
  · intro t ht hu
    have hexp : now < t.expires := by
      rcases (usesSupport_iff now store segs hwf).mp hu with ⟨t', c', ht', -, -, -, hlt⟩
      rw [ht] at ht'
      cases ht'
      exact hlt
    have hsup : jsTruthy (cookieGet now store.supportToken) = true := by
      simp only [usesSupport, Bool.and_eq_true] at hu
      exact hu.1.2
    have htok : selectAuthToken now store segs = cookieGet now store.supportToken := by
      simp [selectAuthToken, hu]
    have hval : cookieGet now store.supportToken = some t.value := by
      simp [ht, cookieGet, hexp]
    rw [hval] at hsup
    have hcall : (forward backendBase now store segs method req downstream).call =
        some { url := buildBackendUrl backendBase segs req.search
               method := method
               bearer := t.value
               contentType :=
                 if isJsonContentType req.contentType then some "application/json" else none
               body := if hasBody method then some req.bodyText else none } := by
      simp [forward, htok, hval, hsup]
    exact ⟨_, hcall, rfl⟩
  · intro hu v hv hne
    have htok : selectAuthToken now store segs = some v := by
      simp [selectAuthToken, hu, hv]
    have htruthy : jsTruthy (some v) = true := by simp [jsTruthy, hne]
    have hcall : (forward backendBase now store segs method req downstream).call =
        some { url := buildBackendUrl backendBase segs req.search
               method := method
               bearer := v
               contentType :=
                 if isJsonContentType req.contentType then some "application/json" else none
               body := if hasBody method then some req.bodyText else none } := by
      simp [forward, htok, htruthy]
    exact ⟨_, hcall, rfl⟩
  · intro hu hfalsy
    have htok : selectAuthToken now store segs = cookieGet now store.accessToken := by
      simp [selectAuthToken, hu]
    simp [forward, htok, hfalsy]

/-- Concrete instance of C1's selection rule: a live Support Session for
clinic `acme` at instant 500 (expiry 1000) makes the Forwarder present the
support token on `clinic/acme/appointments`. -/
theorem forwarder_selects_support_witness :
    ∃ call,
      (forward "http://localhost:8000" 500
        { accessToken := some ⟨"T1", 2000⟩, refreshToken := none, clinicSlug := none
          hqRole := some ⟨"hq", 2000⟩, supportToken := some ⟨"S1", 1000⟩
          supportClinicSlug := some ⟨"acme", 1000⟩, supportExpiresAt := some ⟨"1000", 1000⟩ }
        ["clinic", "acme", "appointments"] "GET"
        { search := "", contentType := none, bodyText := "" }
        { status := 200, contentType := some "application/json", bodyText := "[]" }).call
        = some call ∧ call.bearer = "S1" :=
  (forwarder_selects_support_iff_scope_match_and_unexpired
    "http://localhost:8000" 500
    { accessToken := some ⟨"T1", 2000⟩, refreshToken := none, clinicSlug := none
      hqRole := some ⟨"hq", 2000⟩, supportToken := some ⟨"S1", 1000⟩
      supportClinicSlug := some ⟨"acme", 1000⟩, supportExpiresAt := some ⟨"1000", 1000⟩ }
    ["clinic", "acme", "appointments"] "GET"
    { search := "", contentType := none, bodyText := "" }
    { status := 200, contentType := some "application/json", bodyText := "[]" }
    (by decide)).2.1 ⟨"S1", 1000⟩ rfl (by decide)

/-- C10: on a clinic-scoped path whose clinic segment equals the stored
`supportClinicSlug`, with a live nonempty `supportToken`, the Forwarder
presents the support token and relays the call even when `accessToken` is
absent from the store. -/
theorem forwarder_support_needs_no_access_token
    (backendBase : String) (now : Millis) (store : Store) (segs : List String)
    (method : String) (req : ProxyRequest) (downstream : DownstreamResponse)
    (t c : Cookie)
    (_haccess : store.accessToken = none)
    (hclinic : segs.head? = some "clinic")
    (ht : store.supportToken = some t) (hc : store.supportClinicSlug = some c)
    (hval : t.value ≠ "") (htexp : now < t.expires) (hcexp : now < c.expires)
    (hmatch : segs[1]? = some c.value) :
    ∃ call, (forward backendBase now store segs method req downstream).call = some call ∧
      call.bearer = t.value := by
  have hu : usesSupport now store segs = true := by
    simp [usesSupport, hclinic, ht, hc, cookieGet, htexp, hcexp, jsTruthy, hval, hmatch]
  have htok : selectAuthToken now store segs = some t.value := by
    simp [selectAuthToken, hu, ht, cookieGet, htexp]
  have htruthy : jsTruthy (some t.value) = true := by simp [jsTruthy, hval]
  have hcall : (forward backendBase now store segs method req downstream).call =
      some { url := buildBackendUrl backendBase segs req.search
             method := method
             bearer := t.value
             contentType :=
               if isJsonContentType req.contentType then some "application/json" else none
             body := if hasBody method then some req.bodyText else none } := by
    simp [forward, htok, htruthy]
  exact ⟨_, hcall, rfl⟩

/-- Concrete instance of C10: only a Support Session for `acme` is stored
(no `accessToken`), and `clinic/acme/dashboard` is still relayed with the
support token as bearer. -/
theorem forwarder_support_needs_no_access_token_witness :
    ∃ call,
      (forward "http://localhost:8000" 500
        { accessToken := none, refreshToken := none, clinicSlug := none
          hqRole := none, supportToken := some ⟨"S1", 1000⟩
          supportClinicSlug := some ⟨"acme", 1000⟩, supportExpiresAt := some ⟨"1000", 1000⟩ }
        ["clinic", "acme", "dashboard"] "GET"
        { search := "", contentType := none, bodyText := "" }
        { status := 200, contentType := some "application/json", bodyText := "ok" }).call
        = some call ∧ call.bearer = "S1" :=
  forwarder_support_needs_no_access_token
    "http://localhost:8000" 500
    { accessToken := none, refreshToken := none, clinicSlug := none
      hqRole := none, supportToken := some ⟨"S1", 1000⟩
      supportClinicSlug := some ⟨"acme", 1000⟩, supportExpiresAt := some ⟨"1000", 1000⟩ }
    ["clinic", "acme", "dashboard"] "GET"
    { search := "", contentType := none, bodyText := "" }
    { status := 200, contentType := some "application/json", bodyText := "ok" }
    ⟨"S1", 1000⟩ ⟨"acme", 1000⟩ rfl rfl rfl rfl (by decide) (by decide) (by decide) rfl

/-- Counterexample to C8 as stated: with a declared request content type of
`text/plain` the forwarder forwards no content type at all (it only ever
forwards `application/json`), and when the downstream response carries no
content type the forwarder answers with `application/json` rather than
leaving it unchanged. -/
theorem forwarder_relay_cex :
    ((forward "http://localhost:8000" 0
        { accessToken := some ⟨"T1", 10⟩, refreshToken := none, clinicSlug := none
          hqRole := none, supportToken := none, supportClinicSlug := none
          supportExpiresAt := none }
        ["clinic", "acme", "notes"] "POST"
        { search := "", contentType := some "text/plain", bodyText := "hello" }
        { status := 201, contentType := none, bodyText := "done" }).call.map
          (fun call => call.contentType)) = some none
    ∧ (forward "http://localhost:8000" 0
        { accessToken := some ⟨"T1", 10⟩, refreshToken := none, clinicSlug := none
          hqRole := none, supportToken := none, supportClinicSlug := none
          supportExpiresAt := none }
        ["clinic", "acme", "notes"] "POST"
        { search := "", contentType := some "text/plain", bodyText := "hello" }
        { status := 201, contentType := none, bodyText := "done" }).contentType
        = "application/json" := by
  decide

/-- C8 (amended): whenever a usable credential exists, the Forwarder issues
exactly one downstream call whose URL is the trailing-slash-stripped backend
base, a slash, the joined path tail and the original query string unmodified;
the request body is forwarded unmodified for every method other than the
bodyless reads GET and HEAD; the downstream request carries
`Content-Type: application/json` exactly when the declared request content
type includes `application/json` (any other declared content type is not
forwarded); and the response returns the downstream status and body
unchanged, with the downstream content type when present and
`application/json` substituted when the downstream response declares none. -/
theorem forwarder_relay_amended
    (backendBase : String) (now : Millis) (store : Store) (segs : List String)
    (method : String) (req : ProxyRequest) (downstream : DownstreamResponse)
    (htok : jsTruthy (selectAuthToken now store segs) = true) :
    ∃ call, (forward backendBase now store segs method req downstream).call = some call
      ∧ call.url = stripTrailingSlashes backendBase ++ "/" ++ joinSegments segs ++ req.search
      ∧ call.method = method
      ∧ call.body = (if hasBody method then some req.bodyText else none)
      ∧ call.contentType =
          (if isJsonContentType req.contentType then some "application/json" else none)
      ∧ (forward backendBase now store segs method req downstream).status = downstream.status
      ∧ (forward backendBase now store segs method req downstream).body =
          ProxyBody.passthrough downstream.bodyText
      ∧ (forward backendBase now store segs method req downstream).contentType =
          downstream.contentType.getD "application/json" := by
  refine ⟨{ url := buildBackendUrl backendBase segs req.search
            method := method
            bearer := (selectAuthToken now store segs).getD ""
            contentType :=
              if isJsonContentType req.contentType then some "application/json" else none
            body := if hasBody method then some req.bodyText else none },
          ?_, rfl, rfl, rfl, rfl, ?_, ?_, ?_⟩ <;>
    simp [forward, htok, buildBackendUrl]

/-- Concrete instance of C8 (amended): a POST through a live access token
relays the body and query string and passes the downstream response back. -/
theorem forwarder_relay_amended_witness :
    ∃ call,
      (forward "http://localhost:8000/" 0
        { accessToken := some ⟨"T1", 10⟩, refreshToken := none, clinicSlug := none
          hqRole := none, supportToken := none, supportClinicSlug := none
          supportExpiresAt := none }
        ["clinic", "acme", "appointments"] "POST"
        { search := "?page=2", contentType := some "application/json", bodyText := "\x7b\x7d" }
        { status := 200, contentType := some "text/html", bodyText := "ok" }).call = some call
      ∧ call.url = stripTrailingSlashes "http://localhost:8000/" ++ "/" ++
          joinSegments ["clinic", "acme", "appointments"] ++ "?page=2"
      ∧ call.method = "POST"
      ∧ call.body = (if hasBody "POST" then some "\x7b\x7d" else none)
      ∧ call.contentType =
          (if isJsonContentType (some "application/json") then some "application/json" else none)
      ∧ (forward "http://localhost:8000/" 0
          { accessToken := some ⟨"T1", 10⟩, refreshToken := none, clinicSlug := none
            hqRole := none, supportToken := none, supportClinicSlug := none
            supportExpiresAt := none }
          ["clinic", "acme", "appointments"] "POST"
          { search := "?page=2", contentType := some "application/json", bodyText := "\x7b\x7d" }
          { status := 200, contentType := some "text/html", bodyText := "ok" }).status = 200
      ∧ (forward "http://localhost:8000/" 0
          { accessToken := some ⟨"T1", 10⟩, refreshToken := none, clinicSlug := none
            hqRole := none, supportToken := none, supportClinicSlug := none
            supportExpiresAt := none }
          ["clinic", "acme", "appointments"] "POST"
          { search := "?page=2", contentType := some "application/json", bodyText := "\x7b\x7d" }
          { status := 200, contentType := some "text/html", bodyText := "ok" }).body =
            ProxyBody.passthrough "ok"
      ∧ (forward "http://localhost:8000/" 0
          { accessToken := some ⟨"T1", 10⟩, refreshToken := none, clinicSlug := none
            hqRole := none, supportToken := none, supportClinicSlug := none
            supportExpiresAt := none }
          ["clinic", "acme", "appointments"] "POST"
          { search := "?page=2", contentType := some "application/json", bodyText := "\x7b\x7d" }
          { status := 200, contentType := some "text/html", bodyText := "ok" }).contentType =
            (Option.getD (some "text/html") "application/json") :=
  forwarder_relay_amended "http://localhost:8000/" 0
    { accessToken := some ⟨"T1", 10⟩, refreshToken := none, clinicSlug := none
      hqRole := none, supportToken := none, supportClinicSlug := none
      supportExpiresAt := none }
    ["clinic", "acme", "appointments"] "POST"
    { search := "?page=2", contentType := some "application/json", bodyText := "\x7b\x7d" }
    { status := 200, contentType := some "text/html", bodyText := "ok" }
    (by decide)

/-- Counterexample to C2 as stated: with a live `accessToken` but no
`hqRole`, the support-start route does not fail `UNAUTHORIZED` — it calls
the authority, and on an affirmative authority response it installs the
support token. -/
theorem start_support_without_hq_role_cex :
    ((startSupport 0
        { clinic_id := some 7, reason := some "debug", clinic_slug := some "acme" }
        { status := 200, ok := true, data := some { support_token := some "S1", expires_at := some 900 } }
        { accessToken := some ⟨"T1", 1000⟩, refreshToken := none, clinicSlug := none
          hqRole := none, supportToken := none, supportClinicSlug := none
          supportExpiresAt := none }).2.1 ≠ StartResult.unauthorized)
    ∧ ((startSupport 0
        { clinic_id := some 7, reason := some "debug", clinic_slug := some "acme" }
        { status := 200, ok := true, data := some { support_token := some "S1", expires_at := some 900 } }
        { accessToken := some ⟨"T1", 1000⟩, refreshToken := none, clinicSlug := none
          hqRole := none, supportToken := none, supportClinicSlug := none
          supportExpiresAt := none }).1.supportToken = some ⟨"S1", 900⟩) := by
  decide

/-- C2 (amended): the support-start route fails `UNAUTHORIZED` — leaving the
store unchanged and making no downstream call — exactly when the
`accessToken` cookie is absent; it never consults `hqRole`, so a caller with
an `accessToken` but no `hqRole` proceeds to the authority. -/
theorem start_support_unauthorized_iff_no_access
    (now : Millis) (body : StartBody) (resp : StartAuthorityResp) (store : Store) :
    ((startSupport now body resp store).2.1 = StartResult.unauthorized ↔
      cookieGet now store.accessToken = none)
    ∧ (cookieGet now store.accessToken = none →
        startSupport now body resp store = (store, StartResult.unauthorized, false)) := by
  constructor
  · unfold startSupport
    cases haccess : cookieGet now store.accessToken with
    | none => simp
    | some v =>
      simp only [Option.isSome_some, Bool.not_true, Bool.false_eq_true, if_false,
        reduceCtorEq, iff_false]
      split
      · simp
      · simp
  · intro haccess
    simp [startSupport, haccess]

/-- Concrete instance of C2 (amended): an empty store has no `accessToken`,
so support-start fails `UNAUTHORIZED`, changes nothing and calls nothing. -/
theorem start_support_unauthorized_witness :
    startSupport 0
      { clinic_id := none, reason := none, clinic_slug := some "acme" }
      { status := 200, ok := true, data := some { support_token := some "S1", expires_at := some 900 } }
      Store.empty = (Store.empty, StartResult.unauthorized, false) :=
  (start_support_unauthorized_iff_no_access 0
    { clinic_id := none, reason := none, clinic_slug := some "acme" }
    { status := 200, ok := true, data := some { support_token := some "S1", expires_at := some 900 } }
    Store.empty).2 (by decide)

/-- C9: when the request body omits `clinic_slug`, a successful authority
response still yields a 200 with the authority's ok payload while no cookie
is written — the store is returned untouched. -/
theorem start_support_ok_without_install
    (now : Millis) (body : StartBody) (resp : StartAuthorityResp) (store : Store)
    (haccess : (cookieGet now store.accessToken).isSome = true)
    (hok : httpOk resp.status = true) (hpok : resp.ok = true)
    (hslug : body.clinic_slug = none) :
    startSupport now body resp store = (store, StartResult.okPayload resp, true) := by
  simp [startSupport, haccess, hok, hpok, hslug, jsTruthy]

/-- Concrete instance of C9: a live access token, a successful authority
response carrying a support token, and no `clinic_slug` in the body — the
call reports success and the store is unchanged. -/
theorem start_support_ok_without_install_witness :
    startSupport 0
      { clinic_id := some 7, reason := some "debug", clinic_slug := none }
      { status := 200, ok := true, data := some { support_token := some "S1", expires_at := some 900 } }
      { accessToken := some ⟨"T1", 1000⟩, refreshToken := none, clinicSlug := none
        hqRole := some ⟨"owner", 1000⟩, supportToken := none, supportClinicSlug := none
        supportExpiresAt := none } =
      ({ accessToken := some ⟨"T1", 1000⟩, refreshToken := none, clinicSlug := none
         hqRole := some ⟨"owner", 1000⟩, supportToken := none, supportClinicSlug := none
         supportExpiresAt := none },
       StartResult.okPayload
         { status := 200, ok := true, data := some { support_token := some "S1", expires_at := some 900 } },
       true) :=
  start_support_ok_without_install 0
    { clinic_id := some 7, reason := some "debug", clinic_slug := none }
    { status := 200, ok := true, data := some { support_token := some "S1", expires_at := some 900 } }
    { accessToken := some ⟨"T1", 1000⟩, refreshToken := none, clinicSlug := none
      hqRole := some ⟨"owner", 1000⟩, supportToken := none, supportClinicSlug := none
      supportExpiresAt := none }
    (by decide) (by decide) (by decide) rfl

/-- Counterexample to C6 as stated: on a successful authority response that
omits `expires_at`, the route installs `supportToken` (with the fallback
expiry now + 15 minutes) but does not install `supportExpiresAt` — only two
of the three Support Session fields are written. -/
theorem start_support_install_cex :
    ((startSupport 0
        { clinic_id := some 7, reason := some "debug", clinic_slug := some "acme" }
        { status := 200, ok := true, data := some { support_token := some "S1", expires_at := none } }
        { accessToken := some ⟨"T1", 10000000⟩, refreshToken := none, clinicSlug := none
          hqRole := some ⟨"owner", 10000000⟩, supportToken := none, supportClinicSlug := none
          supportExpiresAt := none }).1.supportToken = some ⟨"S1", 900000⟩)
    ∧ ((startSupport 0
        { clinic_id := some 7, reason := some "debug", clinic_slug := some "acme" }
        { status := 200, ok := true, data := some { support_token := some "S1", expires_at := none } }
        { accessToken := some ⟨"T1", 10000000⟩, refreshToken := none, clinicSlug := none
          hqRole := some ⟨"owner", 10000000⟩, supportToken := none, supportClinicSlug := none
          supportExpiresAt := none }).1.supportExpiresAt = none) := by
  decide

/-- C6 (amended): on a successful authority response whose data carries a
truthy `support_token`, for a request carrying a truthy `clinic_slug`, the
route installs `supportToken` and `supportClinicSlug` with cookie expiry
taken from the authority's `expires_at`, falling back to now + 15 minutes
when `expires_at` is absent; `supportExpiresAt` is installed only when the
authority supplies `expires_at` (otherwise any prior value is left as it
was); the route then returns the ok payload. -/
theorem start_support_install_amended
    (now : Millis) (body : StartBody) (resp : StartAuthorityResp) (store : Store)
    (haccess : (cookieGet now store.accessToken).isSome = true)
    (hok : httpOk resp.status = true) (hpok : resp.ok = true)
    (tok slug : String)
    (htok : (resp.data.getD ⟨none, none⟩).support_token = some tok) (htne : tok ≠ "")
    (hslug : body.clinic_slug = some slug) (hsne : slug ≠ "") :
    (startSupport now body resp store).1.supportToken =
        some ⟨tok, ((resp.data.getD ⟨none, none⟩).expires_at).getD (now + 15 * 60 * 1000)⟩
    ∧ (startSupport now body resp store).1.supportClinicSlug =
        some ⟨slug, ((resp.data.getD ⟨none, none⟩).expires_at).getD (now + 15 * 60 * 1000)⟩
    ∧ (startSupport now body resp store).1.supportExpiresAt =
        (match (resp.data.getD ⟨none, none⟩).expires_at with
          | some e => some ⟨toString e, e⟩
          | none => store.supportExpiresAt)
    ∧ (startSupport now body resp store).2.1 = StartResult.okPayload resp := by
  have ht : jsTruthy (resp.data.getD ⟨none, none⟩).support_token = true := by
    rw [htok]; simp [jsTruthy, htne]
  have hs : jsTruthy body.clinic_slug = true := by
    rw [hslug]; simp [jsTruthy, hsne]
  simp only [startSupport, haccess, hok, hpok, Bool.not_true, Bool.false_or, Bool.or_self,
    if_false, ht, hs, Bool.and_self, if_true, htok, hslug]
  cases hexp : (resp.data.getD ⟨none, none⟩).expires_at <;>
    simp [hexp, jsTruthy, htne, hsne]

/-- Concrete instance of C6 (amended): the authority supplies
`expires_at = 900`, and all three Support Session cookies are installed with
that expiry. -/
theorem start_support_install_amended_witness :
    (startSupport 0
      { clinic_id := some 7, reason := some "debug", clinic_slug := some "acme" }
      { status := 200, ok := true, data := some { support_token := some "S1", expires_at := some 900 } }
      { accessToken := some ⟨"T1", 1000⟩, refreshToken := none, clinicSlug := none
        hqRole := some ⟨"owner", 1000⟩, supportToken := none, supportClinicSlug := none
        supportExpiresAt := none }).1.supportToken = some ⟨"S1", Option.getD (some 900) (0 + 15 * 60 * 1000)⟩
    ∧ (startSupport 0
      { clinic_id := some 7, reason := some "debug", clinic_slug := some "acme" }
      { status := 200, ok := true, data := some { support_token := some "S1", expires_at := some 900 } }
      { accessToken := some ⟨"T1", 1000⟩, refreshToken := none, clinicSlug := none
        hqRole := some ⟨"owner", 1000⟩, supportToken := none, supportClinicSlug := none
        supportExpiresAt := none }).1.supportClinicSlug = some ⟨"acme", Option.getD (some 900) (0 + 15 * 60 * 1000)⟩
    ∧ (startSupport 0
      { clinic_id := some 7, reason := some "debug", clinic_slug := some "acme" }
      { status := 200, ok := true, data := some { support_token := some "S1", expires_at := some 900 } }
      { accessToken := some ⟨"T1", 1000⟩, refreshToken := none, clinicSlug := none
        hqRole := some ⟨"owner", 1000⟩, supportToken := none, supportClinicSlug := none
        supportExpiresAt := none }).1.supportExpiresAt =
        (match (some 900 : Option Millis) with
          | some e => some ⟨toString e, e⟩
          | none => none)
    ∧ (startSupport 0
      { clinic_id := some 7, reason := some "debug", clinic_slug := some "acme" }
      { status := 200, ok := true, data := some { support_token := some "S1", expires_at := some 900 } }
      { accessToken := some ⟨"T1", 1000⟩, refreshToken := none, clinicSlug := none
        hqRole := some ⟨"owner", 1000⟩, supportToken := none, supportClinicSlug := none
        supportExpiresAt := none }).2.1 =
        StartResult.okPayload
          { status := 200, ok := true, data := some { support_token := some "S1", expires_at := some 900 } } :=
  start_support_install_amended 0
    { clinic_id := some 7, reason := some "debug", clinic_slug := some "acme" }
    { status := 200, ok := true, data := some { support_token := some "S1", expires_at := some 900 } }
    { accessToken := some ⟨"T1", 1000⟩, refreshToken := none, clinicSlug := none
      hqRole := some ⟨"owner", 1000⟩, supportToken := none, supportClinicSlug := none
      supportExpiresAt := none }
    (by decide) (by decide) (by decide) "S1" "acme" rfl (by decide) rfl (by decide)

/-- C4: support-stop with no `accessToken` or no live `supportToken` clears
the Support Session fields and succeeds with no downstream call; otherwise it
calls the revoke endpoint and clears the Support Session fields regardless of
the outcome, passing an authority failure through while the local state is
already cleared. -/
theorem stop_support_clears_and_reports
    (now : Millis) (resp : StopAuthorityResp) (store : Store) :
    (((cookieGet now store.accessToken).isSome = false ∨
        (cookieGet now store.supportToken).isSome = false) →
      stopSupport now resp store =
        ({ store with supportToken := none, supportClinicSlug := none, supportExpiresAt := none },
         StopResult.okTrivial, false))
    ∧ ((cookieGet now store.accessToken).isSome = true →
        (cookieGet now store.supportToken).isSome = true →
          (stopSupport now resp store).1 =
            { store with supportToken := none, supportClinicSlug := none, supportExpiresAt := none }
          ∧ (stopSupport now resp store).2.2 = true
          ∧ (stopSupport now resp store).2.1 =
              (if !httpOk resp.status || resp.okField == some false then
                StopResult.passthrough resp.status resp
               else StopResult.okAfterRevoke)) := by
  constructor
  · intro h
    have hcond : (!(cookieGet now store.accessToken).isSome
        || !(cookieGet now store.supportToken).isSome) = true := by
      rcases h with h | h <;> simp [h]
    unfold stopSupport
    rw [if_pos hcond]
    simp [clearSupport_eq]
  · intro haccess hsupport
    simp only [stopSupport, haccess, hsupport, Bool.not_true, Bool.or_self, Bool.false_eq_true,
      if_false]
    split <;> simp_all [clearSupport_eq]

/-- Concrete instance of C4: stopping with no live support token clears the
Support Session fields and succeeds trivially with no downstream call. -/
theorem stop_support_trivial_witness :
    stopSupport 0 { status := 500, okField := some false }
      { accessToken := some ⟨"T1", 1000⟩, refreshToken := none, clinicSlug := none
        hqRole := none, supportToken := none, supportClinicSlug := none
        supportExpiresAt := some ⟨"9", 99⟩ } =
      ({ accessToken := some ⟨"T1", 1000⟩, refreshToken := none, clinicSlug := none
         hqRole := none, supportToken := none, supportClinicSlug := none
         supportExpiresAt := none },
       StopResult.okTrivial, false) :=
  (stop_support_clears_and_reports 0 { status := 500, okField := some false }
    { accessToken := some ⟨"T1", 1000⟩, refreshToken := none, clinicSlug := none
      hqRole := none, supportToken := none, supportClinicSlug := none
      supportExpiresAt := some ⟨"9", 99⟩ }).1 (Or.inr (by decide))

/-- C5: a failed authority login leaves the store untouched and passes the
payload through; a successful one installs `accessToken` (expiry
now + 30 minutes) and `refreshToken` (expiry now + 7 days) together, installs
`hqRole` exactly when the authority grants a truthy `hq_role` (clearing any
prior one otherwise), clears all three Support Session fields, and leaves
`clinicSlug` as it was. -/
theorem login_atomic_install
    (now : Millis) (resp : LoginAuthorityResp) (store : Store) :
    (¬(httpOk resp.status = true ∧ resp.ok = true) →
      login now resp store = (store, LoginResult.failure resp.status resp))
    ∧ (httpOk resp.status = true → resp.ok = true →
        (login now resp store).1.accessToken = some ⟨resp.data.access, now + 1000 * 60 * 30⟩
        ∧ (login now resp store).1.refreshToken =
            some ⟨resp.data.refresh, now + 1000 * 60 * 60 * 24 * 7⟩
        ∧ (login now resp store).1.hqRole =
            (if jsTruthy resp.data.hq_role then
              some ⟨resp.data.hq_role.getD "", now + 1000 * 60 * 60 * 24 * 7⟩
             else none)
        ∧ (login now resp store).1.supportToken = none
        ∧ (login now resp store).1.supportClinicSlug = none
        ∧ (login now resp store).1.supportExpiresAt = none
        ∧ (login now resp store).1.clinicSlug = store.clinicSlug
        ∧ (login now resp store).2 = LoginResult.success resp.data.clinics resp.data.hq_role) := by
  constructor
  · intro h
    have hcond : (!httpOk resp.status || !resp.ok) = true := by
      rcases Decidable.not_and_iff_or_not.mp h with h' | h' <;> simp_all
    simp [login, hcond]
  · intro hok hpok
    simp only [login, hok, hpok, Bool.not_true, Bool.or_self, Bool.false_eq_true, if_false]
    by_cases hq : jsTruthy resp.data.hq_role = true <;>
      simp [hq, clearSupport_eq, deleteKey]

/-- Concrete instance of C5: a successful login with a granted `hq_role`
installs the token pair and the role and clears the Support Session. -/
theorem login_atomic_install_witness :
    (login 0 { status := 200, ok := true
               data := { access := "A", refresh := "R", clinics := ["acme"], hq_role := some "owner" } }
      { accessToken := none, refreshToken := none, clinicSlug := some ⟨"acme", 77⟩
        hqRole := none, supportToken := some ⟨"S", 9⟩, supportClinicSlug := some ⟨"acme", 9⟩
        supportExpiresAt := some ⟨"9", 9⟩ }).1.accessToken = some ⟨"A", 0 + 1000 * 60 * 30⟩
    ∧ (login 0 { status := 200, ok := true
                 data := { access := "A", refresh := "R", clinics := ["acme"], hq_role := some "owner" } }
      { accessToken := none, refreshToken := none, clinicSlug := some ⟨"acme", 77⟩
        hqRole := none, supportToken := some ⟨"S", 9⟩, supportClinicSlug := some ⟨"acme", 9⟩
        supportExpiresAt := some ⟨"9", 9⟩ }).1.refreshToken = some ⟨"R", 0 + 1000 * 60 * 60 * 24 * 7⟩
    ∧ (login 0 { status := 200, ok := true
                 data := { access := "A", refresh := "R", clinics := ["acme"], hq_role := some "owner" } }
      { accessToken := none, refreshToken := none, clinicSlug := some ⟨"acme", 77⟩
        hqRole := none, supportToken := some ⟨"S", 9⟩, supportClinicSlug := some ⟨"acme", 9⟩
        supportExpiresAt := some ⟨"9", 9⟩ }).1.hqRole =
        (if jsTruthy (some "owner") then some ⟨Option.getD (some "owner") "", 0 + 1000 * 60 * 60 * 24 * 7⟩
         else none)
    ∧ (login 0 { status := 200, ok := true
                 data := { access := "A", refresh := "R", clinics := ["acme"], hq_role := some "owner" } }
      { accessToken := none, refreshToken := none, clinicSlug := some ⟨"acme", 77⟩
        hqRole := none, supportToken := some ⟨"S", 9⟩, supportClinicSlug := some ⟨"acme", 9⟩
        supportExpiresAt := some ⟨"9", 9⟩ }).1.supportToken = none
    ∧ (login 0 { status := 200, ok := true
                 data := { access := "A", refresh := "R", clinics := ["acme"], hq_role := some "owner" } }
      { accessToken := none, refreshToken := none, clinicSlug := some ⟨"acme", 77⟩
        hqRole := none, supportToken := some ⟨"S", 9⟩, supportClinicSlug := some ⟨"acme", 9⟩
        supportExpiresAt := some ⟨"9", 9⟩ }).1.supportClinicSlug = none
    ∧ (login 0 { status := 200, ok := true
                 data := { access := "A", refresh := "R", clinics := ["acme"], hq_role := some "owner" } }
      { accessToken := none, refreshToken := none, clinicSlug := some ⟨"acme", 77⟩
        hqRole := none, supportToken := some ⟨"S", 9⟩, supportClinicSlug := some ⟨"acme", 9⟩
        supportExpiresAt := some ⟨"9", 9⟩ }).1.supportExpiresAt = none
    ∧ (login 0 { status := 200, ok := true
                 data := { access := "A", refresh := "R", clinics := ["acme"], hq_role := some "owner" } }
      { accessToken := none, refreshToken := none, clinicSlug := some ⟨"acme", 77⟩
        hqRole := none, supportToken := some ⟨"S", 9⟩, supportClinicSlug := some ⟨"acme", 9⟩
        supportExpiresAt := some ⟨"9", 9⟩ }).1.clinicSlug = some ⟨"acme", 77⟩
    ∧ (login 0 { status := 200, ok := true
                 data := { access := "A", refresh := "R", clinics := ["acme"], hq_role := some "owner" } }
      { accessToken := none, refreshToken := none, clinicSlug := some ⟨"acme", 77⟩
        hqRole := none, supportToken := some ⟨"S", 9⟩, supportClinicSlug := some ⟨"acme", 9⟩
        supportExpiresAt := some ⟨"9", 9⟩ }).2 = LoginResult.success ["acme"] (some "owner") :=
  (login_atomic_install 0
    { status := 200, ok := true
      data := { access := "A", refresh := "R", clinics := ["acme"], hq_role := some "owner" } }
    { accessToken := none, refreshToken := none, clinicSlug := some ⟨"acme", 77⟩
      hqRole := none, supportToken := some ⟨"S", 9⟩, supportClinicSlug := some ⟨"acme", 9⟩
      supportExpiresAt := some ⟨"9", 9⟩ }).2 (by decide) (by decide)

/-- C7: logout empties every Session and Support Session field from every
prior store state and reports success. -/
theorem logout_clears_everything (store : Store) :
    logout store = (Store.empty, SimpleResult.ok) := by
  simp [logout, deleteKey, Store.empty]

/-- A matched clinic path decomposes as `/c/` followed by its nonempty slug
and an optional remainder. -/
theorem clinicMatch_shape (p : String) (slug : String) (h : clinicMatch p = some slug) :
    ∃ rest, p.toList = '/' :: 'c' :: '/' :: rest ∧
      slug = String.mk (rest.takeWhile (fun c => c != '/')) ∧ slug ≠ "" := by
  unfold clinicMatch at h
  by_cases hpre : strStartsWith p "/c/" = true
  · rw [if_pos hpre] at h
    unfold strStartsWith at hpre
    rw [decide_eq_true_iff] at hpre
    obtain ⟨tail, htail⟩ := hpre
    have hlist : p.toList = '/' :: 'c' :: '/' :: tail := by
      rw [← htail]; rfl
    refine ⟨tail, hlist, ?_⟩
    rw [hlist] at h
    simp only [List.drop_succ_cons, List.drop_zero] at h
    by_cases hempty : (tail.takeWhile (fun c => c != '/')).isEmpty = true
    · rw [if_pos hempty] at h
      cases h
    · rw [if_neg hempty] at h
      cases h
      refine ⟨rfl, ?_⟩
      intro habs
      apply hempty
      have : (String.mk (tail.takeWhile (fun c => c != '/'))).data = String.data "" :=
        congrArg String.data habs
      simp only [List.isEmpty_iff]
      exact this
  · rw [if_neg hpre] at h
    cases h

/-- A matched clinic path lies outside every other guarded namespace. -/
theorem clinicMatch_no_other_prefixes (p : String) (slug : String)
    (h : clinicMatch p = some slug) :
    strStartsWith p "/api/" = false ∧ strStartsWith p "/login" = false ∧
    strStartsWith p "/select-clinic" = false ∧ strStartsWith p "/hq" = false := by
  obtain ⟨rest, hlist, -, -⟩ := clinicMatch_shape p slug h
  have hapi : "/api/".toList = ['/', 'a', 'p', 'i', '/'] := rfl
  have hlogin : "/login".toList = ['/', 'l', 'o', 'g', 'i', 'n'] := rfl
  have hsel : "/select-clinic".toList =
      ['/', 's', 'e', 'l', 'e', 'c', 't', '-', 'c', 'l', 'i', 'n', 'i', 'c'] := rfl
  have hhq : "/hq".toList = ['/', 'h', 'q'] := rfl
  have hdata : p.data = '/' :: 'c' :: '/' :: rest := hlist
  refine ⟨?_, ?_, ?_, ?_⟩ <;>
    simp [strStartsWith, hlist, hdata, hapi, hlogin, hsel, hhq, List.cons_prefix_cons]

/-- C3: on a clinic-namespace path `/c/{slug}/...` the Route Guard redirects
to login when `accessToken` is absent, redirects to clinic selection when
`accessToken` is present but the stored `clinicSlug` differs from (or is
absent for) the path's slug, and passes the request exactly when
`accessToken` is present and the stored `clinicSlug` equals the slug. -/
theorem route_guard_clinic_namespace
    (now : Millis) (store : Store) (path slug : String)
    (hmatch : clinicMatch path = some slug) :
    (cookieGet now store.accessToken = none →
      middleware now store path = GuardDecision.redirectLogin)
    ∧ ((cookieGet now store.accessToken).isSome = true →
        (cookieGet now store.clinicSlug ≠ some slug →
          middleware now store path = GuardDecision.redirectSelectClinic)
        ∧ (cookieGet now store.clinicSlug = some slug →
          middleware now store path = GuardDecision.next)) := by
  obtain ⟨hapi, hlogin, hsel, hhq⟩ := clinicMatch_no_other_prefixes path slug hmatch
  obtain ⟨-, -, -, hne⟩ := clinicMatch_shape path slug hmatch
  constructor
  · intro haccess
    simp [middleware, hapi, hlogin, hsel, hhq, hmatch, haccess]
  · intro haccess
    constructor
    · intro hdiff
      have hguard : (!jsTruthy (cookieGet now store.clinicSlug)
          || cookieGet now store.clinicSlug != some slug) = true := by
        cases hc : cookieGet now store.clinicSlug with
        | none => simp [jsTruthy]
        | some v =>
          rw [hc] at hdiff
          have : v ≠ slug := fun hv => hdiff (by rw [hv])
          simp [this]
      simp [middleware, hapi, hlogin, hsel, hhq, hmatch, haccess, hguard]
    · intro heq
      have hguard : (!jsTruthy (cookieGet now store.clinicSlug)
          || cookieGet now store.clinicSlug != some slug) = false := by
        rw [heq]
        simp [jsTruthy, hne]
      simp [middleware, hapi, hlogin, hsel, hhq, hmatch, haccess, hguard]

/-- Concrete instance of C3: a session scoped to clinic `acme` visiting
`/c/other/dashboard` is redirected to clinic selection. -/
theorem route_guard_clinic_namespace_witness :
    middleware 0
      { accessToken := some ⟨"T1", 10⟩, refreshToken := none, clinicSlug := some ⟨"acme", 10⟩
        hqRole := none, supportToken := none, supportClinicSlug := none
        supportExpiresAt := none }
      "/c/other/dashboard" = GuardDecision.redirectSelectClinic :=
  ((route_guard_clinic_namespace 0
    { accessToken := some ⟨"T1", 10⟩, refreshToken := none, clinicSlug := some ⟨"acme", 10⟩
      hqRole := none, supportToken := none, supportClinicSlug := none
      supportExpiresAt := none }
    "/c/other/dashboard" "other" (by decide)).2 (by decide)).1 (by decide)

/-! ### The Support Session invariant holds in every reachable store

The empty store satisfies `supportWF`, and every lifecycle write preserves
it, so the hypothesis of the forwarder-selection theorem holds whenever the
store was produced by the gateway's own operations. -/

/-- The empty store satisfies the Support Session invariant. -/
theorem supportWF_empty : supportWF Store.empty = true := by decide

/-- A store with both support cookies deleted satisfies the invariant. -/
theorem supportWF_clearSupport (store : Store) : supportWF (clearSupport store) = true := by
  simp [clearSupport_eq, supportWF]

/-- Login preserves the Support Session invariant. -/
theorem supportWF_login (now : Millis) (resp : LoginAuthorityResp) (store : Store)
    (h : supportWF store = true) : supportWF (login now resp store).1 = true := by
  unfold login
  split
  · exact h
  · simp [supportWF_clearSupport]

/-- Clinic selection preserves the Support Session invariant. -/
theorem supportWF_selectClinic (now : Millis) (slug : String) (store : Store)
    (h : supportWF store = true) : supportWF (selectClinic now slug store).1 = true := by
  unfold selectClinic
  split
  · exact h
  · simp [supportWF_clearSupport]

/-- Support start preserves the Support Session invariant: it either leaves
the store alone or installs both support cookies together, with the same
expiry and a nonempty token. -/
theorem supportWF_startSupport (now : Millis) (body : StartBody)
    (resp : StartAuthorityResp) (store : Store)
    (h : supportWF store = true) : supportWF (startSupport now body resp store).1 = true := by
  unfold startSupport
  split
  · exact h
  · split
    · exact h
    · simp only
      split
      · rename_i hguard
        simp only [Bool.and_eq_true] at hguard
        have htok : (resp.data.getD ⟨none, none⟩).support_token.getD "" ≠ "" := by
          rcases (jsTruthy_iff _).mp hguard.1 with ⟨v, hv, hvne⟩
          rw [hv]
          exact hvne
        split <;> simp [supportWF, htok]
      · exact h

/-- Support stop preserves the Support Session invariant. -/
theorem supportWF_stopSupport (now : Millis) (resp : StopAuthorityResp) (store : Store) :
    supportWF (stopSupport now resp store).1 = true := by
  unfold stopSupport
  split
  · simp [supportWF_clearSupport]
  · split <;> simp [supportWF_clearSupport]

/-- Logout preserves the Support Session invariant. -/
theorem supportWF_logout (store : Store) : supportWF (logout store).1 = true := by
  simp [logout, deleteKey, supportWF]

end Gateway
